import Mathlib

/-!
Verification of the session-tracking and metrics-derivation core of the
smart-wrapped mobile app: the listening-session state store and event
inferencer (`useListeningSession`) and the metrics engine
(`metricsEngine.calculateDetailedMetrics`).

Numbers are modelled by exact rationals (`ℚ`) standing for JS numbers,
timestamps by integers (`ℤ`, milliseconds since epoch).  JS `Math.round`
is `⌊x + 1/2⌋` (round half toward +∞) and `Math.floor` is `Int.floor`.
-/

namespace SmartWrapped

/-- JS `Math.round`: round half toward positive infinity. -/
def jsRound (q : ℚ) : ℤ := ⌊q + 1 / 2⌋

/-- An artist as it appears on a track object: only a display name
(`track.artists : Array<{ name: string }>`). -/
structure Artist where
  name : String
deriving DecidableEq

/-- A track's album: a name and a list of image URLs. -/
structure Album where
  name : String
  images : List String
deriving DecidableEq

/-- `SpotifyTrack` from `types/spotify.ts`. -/
structure SpotifyTrack where
  id : String
  name : String
  artists : List Artist
  album : Album
  duration_ms : ℚ
deriving DecidableEq

/-- `TrackListen` from `useListeningSession`. -/
structure TrackListen where
  track : SpotifyTrack
  listenDuration : ℚ
  totalDuration : ℚ
  wasSkipped : Bool
  wasEarlySkip : Bool
  completionRate : ℚ
  timestamp : ℤ
deriving DecidableEq

/-- `SessionData` from `useListeningSession`. -/
structure SessionData where
  isActive : Bool
  startTime : Option ℤ
  endTime : Option ℤ
  tracks : List SpotifyTrack
  trackListens : List TrackListen
  totalDuration : ℚ
deriving DecidableEq

/-- The empty, inactive session (the initial `useState` value, also the
result of `clearSession`). -/
def emptySession : SessionData :=
  { isActive := false, startTime := none, endTime := none
    tracks := [], trackListens := [], totalDuration := 0 }

/-- `startSession`: fresh active session with a start timestamp and all
history cleared. -/
def startSession (now : ℤ) : SessionData :=
  { isActive := true, startTime := some now, endTime := none
    tracks := [], trackListens := [], totalDuration := 0 }

/-- `stopSession`: spread of the old session with `isActive := false` and
`endTime := now`. -/
def stopSession (s : SessionData) (now : ℤ) : SessionData :=
  { s with isActive := false, endTime := some now }

/-- `clearSession` resets to the empty inactive session. -/
def clearSession : SessionData := emptySession

/-- The functional state update passed to `setSession` inside
`pollCurrentlyPlaying` (lines 230-251): a no-op when the session is no
longer active; otherwise adds the track to `tracks` only if its id is not
yet present, always appends the listen, and adds the track's full
catalog duration (ms → minutes) to `totalDuration`. -/
def sessionAppend (s : SessionData) (track : SpotifyTrack) (listen : TrackListen) :
    SessionData :=
  if s.isActive then
    { isActive := true
      startTime := s.startTime
      endTime := s.endTime
      tracks := if s.tracks.any (fun t => t.id == track.id) then s.tracks
                else s.tracks ++ [track]
      trackListens := s.trackListens ++ [listen]
      totalDuration := s.totalDuration + track.duration_ms / 1000 / 60 }
  else s

/-- The `TrackListen` built at a detected transition in
`pollCurrentlyPlaying` (lines 213-227), from the newly observed track's
own current progress. -/
def mkTrackListen (track : SpotifyTrack) (progressSec durationSec : ℚ) (now : ℤ) :
    TrackListen :=
  { track := track
    listenDuration := progressSec
    totalDuration := durationSec
    wasSkipped := decide (progressSec < durationSec - 5)
    wasEarlySkip := decide (progressSec < 10)
    completionRate := progressSec / durationSec * 100
    timestamp := now }

/-- The mutable state of the poller/event-inferencer: the two refs
`lastTrackIdRef`, `lastProgressRef` plus the session aggregate. -/
structure PollState where
  lastTrackId : Option String
  lastProgress : ℚ
  session : SessionData
deriving DecidableEq

/-- State right after `startSession`: refs reset to `null` / `0`. -/
def initialPollState (now : ℤ) : PollState :=
  { lastTrackId := none, lastProgress := 0, session := startSession now }

/-- One cycle of `pollCurrentlyPlaying` applied to a playback snapshot
(lines 178-258).  `none` means nothing is playing (the cycle is skipped);
otherwise the snapshot carries the current track and its `progress_ms`
(`progressMs ‖ 0` modelled by `Option.getD 0`).  A track id differing
from `lastTrackId` (including the `null` first observation) is a
transition: a listen for the NEW track at its own current progress is
built and appended; a repeated id only updates `lastProgress`.
The log-only block at lines 191-207 computes values for the previous
track but creates no record, so it is not modelled. -/
def processSnapshot (st : PollState) (snap : Option (SpotifyTrack × Option ℚ))
    (now : ℤ) : PollState :=
  match snap with
  | none => st
  | some (track, progressMsOpt) =>
    let progressSec := progressMsOpt.getD 0 / 1000
    let durationSec := track.duration_ms / 1000
    if some track.id ≠ st.lastTrackId then
      { lastTrackId := some track.id
        lastProgress := progressSec
        session := sessionAppend st.session track
          (mkTrackListen track progressSec durationSec now) }
    else
      { st with lastProgress := progressSec }

/-- Session states reachable from the empty session through the store's
operations (`start`, `stop`, `clear`, and the poll-driven append). -/
inductive ReachableSession : SessionData → Prop
  | init : ReachableSession emptySession
  | start (s : SessionData) (now : ℤ) :
      ReachableSession s → ReachableSession (startSession now)
  | stop (s : SessionData) (now : ℤ) :
      ReachableSession s → ReachableSession (stopSession s now)
  | clear (s : SessionData) :
      ReachableSession s → ReachableSession clearSession
  | append (s : SessionData) (t : SpotifyTrack) (l : TrackListen) :
      ReachableSession s → ReachableSession (sessionAppend s t l)

/-- Concrete tracks for the inferencer example run (durations 200 s,
180 s, 150 s). -/
def trackT1 : SpotifyTrack :=
  { id := "T1", name := "Track One", artists := [⟨"A1"⟩]
    album := ⟨"Alb1", []⟩, duration_ms := 200000 }

def trackT2 : SpotifyTrack :=
  { id := "T2", name := "Track Two", artists := [⟨"A2"⟩]
    album := ⟨"Alb2", []⟩, duration_ms := 180000 }

def trackT3 : SpotifyTrack :=
  { id := "T3", name := "Track Three", artists := [⟨"A3"⟩]
    album := ⟨"Alb3", []⟩, duration_ms := 150000 }

/-- The example snapshot run from the spec: reset state, then
(T1, 5 s), (T2, 3 s), (T2, 3 s), (T3, 0 s). -/
def inferSt0 : PollState := initialPollState 0

def inferSt1 : PollState := processSnapshot inferSt0 (some (trackT1, some 5000)) 1

def inferSt2 : PollState := processSnapshot inferSt1 (some (trackT2, some 3000)) 2

def inferSt3 : PollState := processSnapshot inferSt2 (some (trackT2, some 3000)) 3

def inferSt4 : PollState := processSnapshot inferSt3 (some (trackT3, some 0)) 4

/-- Sample data for witness instantiations. -/
def sampleTrack : SpotifyTrack :=
  { id := "S1", name := "Sample", artists := [⟨"SA"⟩]
    album := ⟨"SAlb", []⟩, duration_ms := 120000 }

def sampleListen : TrackListen := mkTrackListen sampleTrack 7 120 0

/-! ### Metrics engine (`metricsEngine.calculateDetailedMetrics`)

The engine's randomized placeholder fields (`listeningByHour`,
`listeningByDay`, `peakListeningHour`, `averageEnergy`,
`averageDanceability`, `averageValence`) are simulated from random
sampling in the source and are not modelled; every deterministic field
is. -/

/-- `TrackRecommendation` from the metrics engine; `action` is the string
literal pushed by the source (`remove` or `keep`). -/
structure TrackRecommendation where
  track : SpotifyTrack
  reason : String
  action : String
  earlySkipCount : Nat
  totalPlays : Nat
  averageCompletion : ℚ
deriving DecidableEq

/-- One entry of the engine's `trackAnalysis` map. -/
structure TrackAnalysis where
  track : SpotifyTrack
  listens : List TrackListen
  earlySkipCount : Nat
  totalPlays : Nat
  averageCompletion : ℚ
deriving DecidableEq

/-- A JS object used as a counting dictionary, modelled as an
insertion-ordered association list of (key, stored value, count): a hit
increments the existing entry's count in place, a miss appends a fresh
entry holding the first-seen value with count 1 (the source initializes
count to 0 and immediately increments). -/
def bumpCount {α : Type} (acc : List (String × α × Nat)) (k : String) (v : α) :
    List (String × α × Nat) :=
  if acc.any (fun p => p.1 == k) then
    acc.map (fun p => if p.1 == k then (p.1, p.2.1, p.2.2 + 1) else p)
  else acc ++ [(k, v, 1)]

/-- `forEach` population of a counting dictionary (`trackCounts`,
`artistCounts`, `albumCounts`). -/
def countsBy {β α : Type} (key : β → String) (val : β → α) (items : List β) :
    List (String × α × Nat) :=
  items.foldl (fun acc b => bumpCount acc (key b) (val b)) []

/-- `Object.values` of a counting dictionary: the stored values with
their counts, in insertion order. -/
def countValues {α : Type} (l : List (String × α × Nat)) : List (α × Nat) :=
  l.map (fun p => (p.2.1, p.2.2))

/-- JS `Array.prototype.sort` with comparator `(a, b) => b.count - a.count`:
a stable sort in descending count order, modelled by the (stable)
insertion sort inserting each element after all earlier elements of
greater-or-equal count. -/
def sortByCountDesc {γ : Type} (count : γ → Nat) (l : List γ) : List γ :=
  l.insertionSort (fun a b => count b ≤ count a)

/-- The `totalListeningTime` accumulator: sum over the full tracks
sequence of each track's catalog duration in minutes (unrounded). -/
def totalListeningTimeOf (tracks : List SpotifyTrack) : ℚ :=
  tracks.foldl (fun sum track => sum + track.duration_ms / 1000 / 60) 0

/-- `new Set(...).size`: number of distinct elements. -/
def jsSetSize (l : List String) : Nat :=
  (l.foldl (fun acc x => if acc.contains x then acc else acc ++ [x]) []).length

/-- `trackCounts`: plays grouped by track id, storing the first-seen
track object. -/
def trackCounts (tracks : List SpotifyTrack) : List (String × SpotifyTrack × Nat) :=
  countsBy (fun t => t.id) (fun t => t) tracks

/-- `topTracks`: values of `trackCounts`, sorted descending by count,
first 10. -/
def topTracksOf (tracks : List SpotifyTrack) : List (SpotifyTrack × Nat) :=
  (sortByCountDesc (fun p => p.2) (countValues (trackCounts tracks))).take 10

/-- `artistCounts`: plays grouped by artist display NAME over each
track's artist list, storing the first-seen artist object. -/
def artistCounts (tracks : List SpotifyTrack) : List (String × Artist × Nat) :=
  countsBy (fun a => a.name) (fun a => a) ((tracks.map (fun t => t.artists)).flatten)

/-- `topArtists`: values of `artistCounts`, sorted descending by count,
first 10. -/
def topArtistsOf (tracks : List SpotifyTrack) : List (Artist × Nat) :=
  (sortByCountDesc (fun p => p.2) (countValues (artistCounts tracks))).take 10

/-- `uniqueArtists = Object.keys(artistCounts).length`. -/
def uniqueArtistsOf (tracks : List SpotifyTrack) : Nat :=
  (artistCounts tracks).length

/-- `albumCounts`: plays grouped by album name, storing the album name
and the first image URL (`albumArt`).  `track.album` is always present
per the `SpotifyTrack` type, so the source's `if (track.album)` guard is
always taken. -/
def albumCounts (tracks : List SpotifyTrack) :
    List (String × (String × Option String) × Nat) :=
  countsBy (fun t => t.album.name) (fun t => (t.album.name, t.album.images.head?)) tracks

/-- `topAlbums`: values of `albumCounts`, sorted descending by count,
first 5. -/
def topAlbumsOf (tracks : List SpotifyTrack) : List ((String × Option String) × Nat) :=
  (sortByCountDesc (fun p => p.2) (countValues (albumCounts tracks))).take 5

/-- `totalSkips`: listens with `wasEarlySkip` (only early skips count). -/
def totalSkipsOf (trackListens : List TrackListen) : Nat :=
  (trackListens.filter (fun l => l.wasEarlySkip)).length

/-- `skipRate = Math.round((totalSkips / trackListens.length) * 100)`,
`0` for an empty listen list. -/
def skipRateOf (trackListens : List TrackListen) : ℤ :=
  if trackListens.length > 0 then
    jsRound ((totalSkipsOf trackListens : ℚ) / (trackListens.length : ℚ) * 100)
  else 0

/-- `completionRate = 100 - skipRate`. -/
def completionRateOf (trackListens : List TrackListen) : ℤ :=
  100 - skipRateOf trackListens

/-- `averageListenDuration = Math.round(sum of completionRate / length)`,
`0` for an empty listen list. -/
def averageListenDurationOf (trackListens : List TrackListen) : ℤ :=
  if trackListens.length > 0 then
    jsRound ((trackListens.foldl (fun sum l => sum + l.completionRate) 0)
      / (trackListens.length : ℚ))
  else 0

/-- One `forEach` step populating the `trackAnalysis` dictionary. -/
def bumpAnalysis (acc : List (String × TrackAnalysis)) (listen : TrackListen) :
    List (String × TrackAnalysis) :=
  if acc.any (fun p => p.1 == listen.track.id) then
    acc.map (fun p =>
      if p.1 == listen.track.id then
        (p.1, { p.2 with
                listens := p.2.listens ++ [listen]
                totalPlays := p.2.totalPlays + 1
                earlySkipCount :=
                  p.2.earlySkipCount + (if listen.wasEarlySkip then 1 else 0) })
      else p)
  else
    acc ++ [(listen.track.id,
      { track := listen.track, listens := [listen]
        earlySkipCount := if listen.wasEarlySkip then 1 else 0
        totalPlays := 1, averageCompletion := 0 })]

/-- The per-track analysis: listens grouped by track id, then
`averageCompletion` filled in as the mean completionRate of each group;
the values of the dictionary in insertion order. -/
def trackAnalysisOf (trackListens : List TrackListen) : List TrackAnalysis :=
  (trackListens.foldl bumpAnalysis []).map (fun p =>
    { p.2 with averageCompletion :=
        (p.2.listens.foldl (fun sum l => sum + l.completionRate) 0)
          / (p.2.listens.length : ℚ) })

/-- The skip-ratio removal reason string. -/
def skipRemoveReason (a : TrackAnalysis) : String :=
  "Skipped within 10 seconds " ++ toString a.earlySkipCount ++ "/"
    ++ toString a.totalPlays ++ " times"

/-- The low-completion removal reason string. -/
def completionRemoveReason (a : TrackAnalysis) : String :=
  "Only " ++ toString (jsRound a.averageCompletion) ++ "% average completion"

/-- The keep reason string. -/
def keepReason (a : TrackAnalysis) : String :=
  toString (jsRound a.averageCompletion) ++ "% average completion - you love this!"

/-- The recommendation pushed to `songsToRemove`; the skip-ratio reason
takes precedence when both removal conditions hold. -/
def removeRec (a : TrackAnalysis) : TrackRecommendation :=
  { track := a.track
    reason := if (a.earlySkipCount : ℚ) / (a.totalPlays : ℚ) > 1 / 2 then
        skipRemoveReason a
      else completionRemoveReason a
    action := "remove"
    earlySkipCount := a.earlySkipCount
    totalPlays := a.totalPlays
    averageCompletion := a.averageCompletion }

/-- The recommendation pushed to `songsToKeep`. -/
def keepRec (a : TrackAnalysis) : TrackRecommendation :=
  { track := a.track
    reason := keepReason a
    action := "keep"
    earlySkipCount := a.earlySkipCount
    totalPlays := a.totalPlays
    averageCompletion := a.averageCompletion }

/-- The recommendation `forEach`: remove if early-skip ratio > 0.5 or
average completion < 30; otherwise keep if average completion > 85 and
no early skips; otherwise nothing. -/
def buildRecommendations (al : List TrackAnalysis) :
    List TrackRecommendation × List TrackRecommendation :=
  al.foldl (fun acc a =>
    if (a.earlySkipCount : ℚ) / (a.totalPlays : ℚ) > 1 / 2 ∨ a.averageCompletion < 30 then
      (acc.1 ++ [removeRec a], acc.2)
    else if a.averageCompletion > 85 ∧ a.earlySkipCount = 0 then
      (acc.1, acc.2 ++ [keepRec a])
    else acc) ([], [])

/-- `overplayedSongs`: top tracks played more than 5 times, first 5. -/
def overplayedSongsOf (tracks : List SpotifyTrack) : List SpotifyTrack :=
  (((topTracksOf tracks).filter (fun p => p.2 > 5)).map (fun p => p.1)).take 5

/-- `mostSkippedArtist`: the last entry of `topArtists` when more than 3
artists, else "Unknown" (when the length exceeds 3 the list is nonempty,
so `getLast?` is `some`). -/
def mostSkippedArtistOf (tracks : List SpotifyTrack) : String :=
  if (topArtistsOf tracks).length > 3 then
    (((topArtistsOf tracks).getLast?).map (fun p => p.1.name)).getD "Unknown"
  else "Unknown"

/-- `listeningDiversity = Math.round((uniqueArtists / tracks.length) * 100)`
when there is artist data, else 0. -/
def listeningDiversityOf (tracks : List SpotifyTrack) : ℤ :=
  if uniqueArtistsOf tracks > 0 then
    jsRound ((uniqueArtistsOf tracks : ℚ) / (tracks.length : ℚ) * 100)
  else 0

/-- `sessionDuration`: JS `sessionStartTime && sessionEndTime ? ... : ...`
— both timestamps must be non-null AND truthy (non-zero) for the
wall-clock difference; otherwise the floor of the unrounded total
listening time. -/
def sessionDurationOf (sessionStartTime sessionEndTime : Option ℤ) (tlt : ℚ) : ℤ :=
  match sessionStartTime, sessionEndTime with
  | some s, some e =>
    if s ≠ 0 ∧ e ≠ 0 then ⌊(((e - s : ℤ) : ℚ)) / 1000 / 60⌋ else ⌊tlt⌋
  | _, _ => ⌊tlt⌋

/-- The deterministic fields of `DetailedMetrics`. -/
structure DetailedMetrics where
  totalListeningTime : ℤ
  topArtists : List (Artist × Nat)
  topTracks : List (SpotifyTrack × Nat)
  topAlbums : List ((String × Option String) × Nat)
  uniqueTracks : Nat
  uniqueArtists : Nat
  skipRate : ℤ
  completionRate : ℤ
  totalSkips : Nat
  earlySkips : Nat
  averageListenDuration : ℤ
  overplayedSongs : List SpotifyTrack
  songsToRemove : List TrackRecommendation
  songsToKeep : List TrackRecommendation
  mostSkippedArtist : String
  listeningDiversity : ℤ
  sessionDuration : ℤ
  trackCount : Nat
deriving DecidableEq

/-- `metricsEngine.calculateDetailedMetrics` (deterministic fields). -/
def calculateDetailedMetrics (tracks : List SpotifyTrack)
    (trackListens : List TrackListen)
    (sessionStartTime sessionEndTime : Option ℤ) : DetailedMetrics :=
  { totalListeningTime := jsRound (totalListeningTimeOf tracks)
    topArtists := topArtistsOf tracks
    topTracks := topTracksOf tracks
    topAlbums := topAlbumsOf tracks
    uniqueTracks := jsSetSize (tracks.map (fun t => t.id))
    uniqueArtists := uniqueArtistsOf tracks
    skipRate := skipRateOf trackListens
    completionRate := completionRateOf trackListens
    totalSkips := totalSkipsOf trackListens
    earlySkips := totalSkipsOf trackListens
    averageListenDuration := averageListenDurationOf trackListens
    overplayedSongs := overplayedSongsOf tracks
    songsToRemove := (buildRecommendations (trackAnalysisOf trackListens)).1
    songsToKeep := (buildRecommendations (trackAnalysisOf trackListens)).2
    mostSkippedArtist := mostSkippedArtistOf tracks
    listeningDiversity := listeningDiversityOf tracks
    sessionDuration :=
      sessionDurationOf sessionStartTime sessionEndTime (totalListeningTimeOf tracks)
    trackCount := tracks.length }

/-! ### Claim-side (spec-worded) definitions for the grouping claims -/

/-- Keys in first-encounter order (spec side: "grouped by ..., ties broken
by first-encounter order"). -/
def firstKeys {β : Type} (key : β → String) (items : List β) : List String :=
  items.foldl (fun acc b => if acc.contains (key b) then acc else acc ++ [key b]) []

/-- Spec-side grouping: for each key in first-encounter order, the value
of the FIRST item with that key together with the total number of
occurrences of the key in the whole sequence (repeats counted). -/
def specGroup {β α : Type} (key : β → String) (val : β → α) (items : List β) :
    List (String × α × Nat) :=
  (firstKeys key items).filterMap (fun k =>
    (items.find? (fun b => key b == k)).map (fun b =>
      (k, val b, items.countP (fun x => key x == k))))

/-! ### Concrete example data for the metrics claims -/

/-- A listen on the sample track with a chosen completion rate and
early-skip flag. -/
def exListen (completion : ℚ) (early : Bool) : TrackListen :=
  { track := sampleTrack
    listenDuration := if early then 5 else 100
    totalDuration := 120
    wasSkipped := true
    wasEarlySkip := early
    completionRate := completion
    timestamp := 0 }

/-- Ten listens, three of them early skips (skip-rate example). -/
def c6listens : List TrackListen :=
  List.replicate 3 (exListen 10 true) ++ List.replicate 7 (exListen 90 false)

/-- A track by a single named artist (diversity example). -/
def c8track (artistName : String) (trackId : String) : SpotifyTrack :=
  { id := trackId, name := "Song", artists := [⟨artistName⟩]
    album := ⟨"Album", []⟩, duration_ms := 60000 }

/-- Twenty track plays across four unique artist names. -/
def c8tracks : List SpotifyTrack :=
  List.replicate 5 (c8track "A" "a") ++ List.replicate 5 (c8track "B" "b")
    ++ List.replicate 5 (c8track "C" "c") ++ List.replicate 5 (c8track "D" "d")

/-- A single listen whose completion rate (5/2) has a non-integer mean. -/
def c9listen : TrackListen := exListen (5 / 2) true

/-- Four listens on one track, three of them early skips, with arbitrary
completion rates. -/
def c5skipListens (q1 q2 q3 q4 : ℚ) : List TrackListen :=
  [exListen q1 true, exListen q2 true, exListen q3 true, exListen q4 false]

/-- Five listens on one track, no early skips, completion 92 each. -/
def c5keepListens : List TrackListen :=
  [exListen 92 false, exListen 92 false, exListen 92 false,
   exListen 92 false, exListen 92 false]

end SmartWrapped

namespace SmartWrapped

/-- Equation for `processSnapshot` at a detected transition. -/
lemma processSnapshot_trans (st : PollState) (track : SpotifyTrack)
    (pOpt : Option ℚ) (now : ℤ) (h : some track.id ≠ st.lastTrackId) :
    processSnapshot st (some (track, pOpt)) now =
      { lastTrackId := some track.id
        lastProgress := pOpt.getD 0 / 1000
        session := sessionAppend st.session track
          (mkTrackListen track (pOpt.getD 0 / 1000) (track.duration_ms / 1000) now) } := by
  simp only [processSnapshot]
  rw [if_pos h]

/-- Equation for `processSnapshot` when the same track is still playing:
only `lastProgress` is updated. -/
lemma processSnapshot_same (st : PollState) (track : SpotifyTrack)
    (pOpt : Option ℚ) (now : ℤ) (h : some track.id = st.lastTrackId) :
    processSnapshot st (some (track, pOpt)) now =
      { st with lastProgress := pOpt.getD 0 / 1000 } := by
  simp only [processSnapshot]
  rw [if_neg (by simp [h])]

/-- Equation for `sessionAppend` on an active session when the track id is
not yet present. -/
lemma sessionAppend_active_new (s : SessionData) (track : SpotifyTrack)
    (listen : TrackListen) (hA : s.isActive = true)
    (hT : s.tracks.any (fun t => t.id == track.id) = false) :
    sessionAppend s track listen =
      { isActive := true, startTime := s.startTime, endTime := s.endTime
        tracks := s.tracks ++ [track]
        trackListens := s.trackListens ++ [listen]
        totalDuration := s.totalDuration + track.duration_ms / 1000 / 60 } := by
  simp [sessionAppend, hA, hT]

/-- Equation for `sessionAppend` on an active session when the track id is
already present: `tracks` is unchanged. -/
lemma sessionAppend_active_dup (s : SessionData) (track : SpotifyTrack)
    (listen : TrackListen) (hA : s.isActive = true)
    (hT : s.tracks.any (fun t => t.id == track.id) = true) :
    sessionAppend s track listen =
      { isActive := true, startTime := s.startTime, endTime := s.endTime
        tracks := s.tracks
        trackListens := s.trackListens ++ [listen]
        totalDuration := s.totalDuration + track.duration_ms / 1000 / 60 } := by
  simp [sessionAppend, hA, hT]

/-- Evaluation of the first example snapshot: the null→T1 change is a
transition and already records T1 at its observed progress of 5 s. -/
lemma inferSt1_eq :
    inferSt1 =
      { lastTrackId := some "T1", lastProgress := 5
        session :=
          { isActive := true, startTime := some 0, endTime := none
            tracks := [trackT1]
            trackListens := [{ track := trackT1, listenDuration := 5
                               totalDuration := 200, wasSkipped := true
                               wasEarlySkip := true, completionRate := 5 / 2
                               timestamp := 1 }]
            totalDuration := 10 / 3 } } := by
  rw [inferSt1, processSnapshot_trans _ _ _ _ (by decide),
    sessionAppend_active_new _ _ _ (by decide) (by decide)]
  norm_num [inferSt0, initialPollState, startSession, mkTrackListen, trackT1]

/-- Evaluation of the second example snapshot: the T1→T2 transition
records T2 at its own progress of 3 s. -/
lemma inferSt2_eq :
    inferSt2 =
      { lastTrackId := some "T2", lastProgress := 3
        session :=
          { isActive := true, startTime := some 0, endTime := none
            tracks := [trackT1, trackT2]
            trackListens := [{ track := trackT1, listenDuration := 5
                               totalDuration := 200, wasSkipped := true
                               wasEarlySkip := true, completionRate := 5 / 2
                               timestamp := 1 },
                             { track := trackT2, listenDuration := 3
                               totalDuration := 180, wasSkipped := true
                               wasEarlySkip := true, completionRate := 5 / 3
                               timestamp := 2 }]
            totalDuration := 10 / 3 + 3 } } := by
  rw [inferSt2, inferSt1_eq, processSnapshot_trans _ _ _ _ (by decide),
    sessionAppend_active_new _ _ _ (by decide) (by decide)]
  norm_num [mkTrackListen, trackT2]

/-- Evaluation of the third example snapshot: the repeated T2 snapshot
produces no record. -/
lemma inferSt3_eq : inferSt3 = inferSt2 := by
  rw [inferSt3, inferSt2_eq, processSnapshot_same _ _ _ _ (by decide)]
  norm_num

/-- Evaluation of the fourth example snapshot: the T2→T3 transition
records T3 at its own progress of 0 s. -/
lemma inferSt4_eq :
    inferSt4 =
      { lastTrackId := some "T3", lastProgress := 0
        session :=
          { isActive := true, startTime := some 0, endTime := none
            tracks := [trackT1, trackT2, trackT3]
            trackListens := [{ track := trackT1, listenDuration := 5
                               totalDuration := 200, wasSkipped := true
                               wasEarlySkip := true, completionRate := 5 / 2
                               timestamp := 1 },
                             { track := trackT2, listenDuration := 3
                               totalDuration := 180, wasSkipped := true
                               wasEarlySkip := true, completionRate := 5 / 3
                               timestamp := 2 },
                             { track := trackT3, listenDuration := 0
                               totalDuration := 150, wasSkipped := true
                               wasEarlySkip := true, completionRate := 0
                               timestamp := 4 }]
            totalDuration := 10 / 3 + 3 + 5 / 2 } } := by
  rw [inferSt4, inferSt3_eq, inferSt2_eq, processSnapshot_trans _ _ _ _ (by decide),
    sessionAppend_active_new _ _ _ (by decide) (by decide)]
  norm_num [mkTrackListen, trackT3]

/-- C1 (counterexample): the four-snapshot run produces three TrackListen
records, not the two the claim states — every id change (including the
first observation and the T2→T3 transition, which records T3 at
progress 0) creates a record for the newly observed track. -/
theorem c1_counterexample :
    inferSt4.session.trackListens.length = 3 ∧
    ¬ inferSt4.session.trackListens.length = 2 := by
  decide

/-- C1 (amended): the run produces exactly three records — T1 with
listenDuration 5 and wasEarlySkip at the first (null→T1) observation,
T2 with listenDuration 3 and wasEarlySkip at the T1→T2 transition, and
T3 with listenDuration 0 and wasEarlySkip at the T2→T3 transition; the
repeated T2 snapshot produces no record. -/
theorem c1_amended :
    (inferSt1.session.trackListens.map fun l =>
      (l.track.id, l.listenDuration, l.wasEarlySkip)) = [("T1", 5, true)] ∧
    (inferSt2.session.trackListens.map fun l =>
      (l.track.id, l.listenDuration, l.wasEarlySkip)) =
        [("T1", 5, true), ("T2", 3, true)] ∧
    inferSt3.session.trackListens = inferSt2.session.trackListens ∧
    (inferSt4.session.trackListens.map fun l =>
      (l.track.id, l.listenDuration, l.wasEarlySkip)) =
        [("T1", 5, true), ("T2", 3, true), ("T3", 0, true)] := by
  rw [inferSt4_eq, inferSt3_eq, inferSt2_eq, inferSt1_eq]
  refine ⟨rfl, rfl, rfl, rfl⟩

/-- C2: a snapshot whose track id differs from `lastTrackId` (a
transition to track T at position P = progress_ms/1000 with duration
D = duration_ms/1000) creates exactly one TrackListen with
listenDuration = P, totalDuration = D, wasSkipped ↔ P < D − 5,
wasEarlySkip ↔ P < 10, completionRate = 100·P/D (unclamped), and the
session becomes the append of (T, that listen). -/
theorem c2_transition_record (st : PollState) (track : SpotifyTrack)
    (pOpt : Option ℚ) (now : ℤ) (h : some track.id ≠ st.lastTrackId) :
    processSnapshot st (some (track, pOpt)) now =
      { lastTrackId := some track.id
        lastProgress := pOpt.getD 0 / 1000
        session := sessionAppend st.session track
          (mkTrackListen track (pOpt.getD 0 / 1000) (track.duration_ms / 1000) now) } ∧
    (mkTrackListen track (pOpt.getD 0 / 1000) (track.duration_ms / 1000) now).listenDuration
        = pOpt.getD 0 / 1000 ∧
    (mkTrackListen track (pOpt.getD 0 / 1000) (track.duration_ms / 1000) now).totalDuration
        = track.duration_ms / 1000 ∧
    ((mkTrackListen track (pOpt.getD 0 / 1000) (track.duration_ms / 1000) now).wasSkipped = true
        ↔ pOpt.getD 0 / 1000 < track.duration_ms / 1000 - 5) ∧
    ((mkTrackListen track (pOpt.getD 0 / 1000) (track.duration_ms / 1000) now).wasEarlySkip = true
        ↔ pOpt.getD 0 / 1000 < 10) ∧
    (mkTrackListen track (pOpt.getD 0 / 1000) (track.duration_ms / 1000) now).completionRate
        = 100 * (pOpt.getD 0 / 1000) / (track.duration_ms / 1000) := by
  refine ⟨?_, rfl, rfl, by simp [mkTrackListen], by simp [mkTrackListen], ?_⟩
  · simp only [processSnapshot, if_pos h]
  · show pOpt.getD 0 / 1000 / (track.duration_ms / 1000) * 100 = _
    ring

/-- C2 witness: the transition hypothesis and a projection of the
conclusion hold at the concrete first snapshot of the example run. -/
theorem c2_transition_record_witness :
    (some trackT1.id ≠ (initialPollState 0).lastTrackId) ∧
    (mkTrackListen trackT1 ((some (5000 : ℚ)).getD 0 / 1000)
        (trackT1.duration_ms / 1000) 1).listenDuration
      = (some (5000 : ℚ)).getD 0 / 1000 :=
  ⟨by decide, (c2_transition_record (initialPollState 0) trackT1 (some 5000) 1
    (by decide)).2.1⟩

/-- C3: when the session is inactive, the poll-driven append is a no-op —
the state and every one of its fields are unchanged. -/
theorem c3_append_inactive_noop (s : SessionData) (t : SpotifyTrack)
    (l : TrackListen) (h : s.isActive = false) :
    sessionAppend s t l = s ∧
    (sessionAppend s t l).tracks = s.tracks ∧
    (sessionAppend s t l).trackListens = s.trackListens ∧
    (sessionAppend s t l).totalDuration = s.totalDuration ∧
    (sessionAppend s t l).isActive = false ∧
    (sessionAppend s t l).startTime = s.startTime ∧
    (sessionAppend s t l).endTime = s.endTime := by
  have he : sessionAppend s t l = s := by simp [sessionAppend, h]
  exact ⟨he, by rw [he], by rw [he], by rw [he], by rw [he, h], by rw [he], by rw [he]⟩

/-- C3 witness: the no-op equality at a concrete stopped session. -/
theorem c3_append_inactive_noop_witness :
    ((stopSession (startSession 0) 5).isActive = false) ∧
    sessionAppend (stopSession (startSession 0) 5) sampleTrack sampleListen
      = stopSession (startSession 0) 5 :=
  ⟨by decide, (c3_append_inactive_noop (stopSession (startSession 0) 5)
    sampleTrack sampleListen (by decide)).1⟩

/-- The duplicate-membership test of `sessionAppend` as an existential. -/
lemma tracks_any_iff (ts : List SpotifyTrack) (t : SpotifyTrack) :
    ts.any (fun u => u.id == t.id) = true ↔ ∃ u ∈ ts, u.id = t.id := by
  simp [List.any_eq_true]

/-- C4: appending to an active session leaves `tracks` unchanged when the
track id is already present, appends the track once when it is not, and
always grows `trackListens` by exactly one; consequently every session
reachable by start/stop/clear/append has duplicate-free track ids, while
a reachable session may carry duplicate ids in `trackListens`. -/
theorem c4_track_dedup_invariant :
    (∀ (s : SessionData) (t : SpotifyTrack) (l : TrackListen), s.isActive = true →
      ((∃ u ∈ s.tracks, u.id = t.id) → (sessionAppend s t l).tracks = s.tracks) ∧
      ((¬ ∃ u ∈ s.tracks, u.id = t.id) →
        (sessionAppend s t l).tracks = s.tracks ++ [t]) ∧
      (sessionAppend s t l).trackListens.length = s.trackListens.length + 1) ∧
    (∀ s : SessionData, ReachableSession s → (s.tracks.map (fun t => t.id)).Nodup) ∧
    (∃ s : SessionData, ReachableSession s ∧
      ¬ (s.trackListens.map (fun l => l.track.id)).Nodup) := by
  refine ⟨?_, ?_, ?_⟩
  · intro s t l hA
    refine ⟨fun hmem => ?_, fun hmem => ?_, ?_⟩
    · rw [sessionAppend_active_dup s t l hA ((tracks_any_iff s.tracks t).mpr hmem)]
    · have hany : s.tracks.any (fun u => u.id == t.id) = false := by
        rcases h : s.tracks.any (fun u => u.id == t.id) with _ | _
        · rfl
        · exact absurd ((tracks_any_iff s.tracks t).mp h) hmem
      rw [sessionAppend_active_new s t l hA hany]
    · rcases h : s.tracks.any (fun u => u.id == t.id) with _ | _
      · rw [sessionAppend_active_new s t l hA h]
        simp
      · rw [sessionAppend_active_dup s t l hA h]
        simp
  · intro s hs
    induction hs with
    | init => simp [emptySession]
    | start s now _ _ => simp [startSession]
    | stop s now _ ih => simpa [stopSession] using ih
    | clear s _ _ => simp [clearSession, emptySession]
    | append s t l _ ih =>
      by_cases hA : s.isActive = true
      · rcases h : s.tracks.any (fun u => u.id == t.id) with _ | _
        · rw [sessionAppend_active_new s t l hA h]
          have hnotmem : ∀ u ∈ s.tracks, ¬ u.id = t.id := by
            intro u hu hid
            have : s.tracks.any (fun u => u.id == t.id) = true :=
              (tracks_any_iff s.tracks t).mpr ⟨u, hu, hid⟩
            rw [h] at this
            exact Bool.false_ne_true this
          simpa [List.nodup_append] using ⟨ih, hnotmem⟩
        · rw [sessionAppend_active_dup s t l hA h]
          exact ih
      · have hA' : s.isActive = false := by
          rcases hAA : s.isActive with _ | _
          · rfl
          · exact absurd hAA hA
        have hnoop : sessionAppend s t l = s := by simp [sessionAppend, hA']
        rw [hnoop]
        exact ih
  · refine ⟨sessionAppend (sessionAppend (startSession 0) sampleTrack sampleListen)
      sampleTrack sampleListen, ?_, ?_⟩
    · exact ReachableSession.append _ _ _
        (ReachableSession.append _ _ _
          (ReachableSession.start emptySession 0 ReachableSession.init))
    · decide

/-- C4 witness: the listen-growth equation at a concrete active session,
and the Nodup invariant at the (reachable) empty session. -/
theorem c4_track_dedup_invariant_witness :
    ((startSession 0).isActive = true ∧
      (sessionAppend (startSession 0) sampleTrack sampleListen).trackListens.length
        = (startSession 0).trackListens.length + 1) ∧
    (emptySession.tracks.map (fun t => t.id)).Nodup :=
  ⟨⟨rfl, (c4_track_dedup_invariant.1 (startSession 0) sampleTrack sampleListen rfl).2.2⟩,
    c4_track_dedup_invariant.2.1 emptySession ReachableSession.init⟩

/-- Folding addition of a projection starting from `init` is `init` plus
the sum of the projected values. -/
lemma foldl_add_eq {α : Type} (f : α → ℚ) (l : List α) (init : ℚ) :
    l.foldl (fun sum x => sum + f x) init = init + (l.map f).sum := by
  induction l generalizing init with
  | nil => simp
  | cons x xs ih => simp [ih, add_assoc]

/-- The running accumulator equals the sum of catalog durations in
minutes. -/
lemma totalListeningTimeOf_eq (tracks : List SpotifyTrack) :
    totalListeningTimeOf tracks
      = (tracks.map (fun t => t.duration_ms / 1000 / 60)).sum := by
  simpa [totalListeningTimeOf] using
    foldl_add_eq (fun t : SpotifyTrack => t.duration_ms / 1000 / 60) tracks 0

/-- The recommendation fold is equivalent to a pair of selections: a
group is pushed to `songsToRemove` exactly when its early-skip ratio
exceeds 1/2 or its average completion is below 30, and (only otherwise)
to `songsToKeep` exactly when its average completion exceeds 85 and it
has no early skips. -/
lemma buildRecommendations_eq_filterMap (al : List TrackAnalysis) :
    buildRecommendations al =
      (al.filterMap (fun a =>
          if (a.earlySkipCount : ℚ) / (a.totalPlays : ℚ) > 1 / 2 ∨ a.averageCompletion < 30
          then some (removeRec a) else none),
       al.filterMap (fun a =>
          if ¬ ((a.earlySkipCount : ℚ) / (a.totalPlays : ℚ) > 1 / 2 ∨ a.averageCompletion < 30)
              ∧ (a.averageCompletion > 85 ∧ a.earlySkipCount = 0)
          then some (keepRec a) else none)) := by
  suffices h : ∀ (bl : List TrackAnalysis)
      (acc : List TrackRecommendation × List TrackRecommendation),
      bl.foldl (fun acc a =>
        if (a.earlySkipCount : ℚ) / (a.totalPlays : ℚ) > 1 / 2 ∨ a.averageCompletion < 30 then
          (acc.1 ++ [removeRec a], acc.2)
        else if a.averageCompletion > 85 ∧ a.earlySkipCount = 0 then
          (acc.1, acc.2 ++ [keepRec a])
        else acc) acc
      = (acc.1 ++ bl.filterMap (fun a =>
            if (a.earlySkipCount : ℚ) / (a.totalPlays : ℚ) > 1 / 2 ∨ a.averageCompletion < 30
            then some (removeRec a) else none),
         acc.2 ++ bl.filterMap (fun a =>
            if ¬ ((a.earlySkipCount : ℚ) / (a.totalPlays : ℚ) > 1 / 2 ∨ a.averageCompletion < 30)
                ∧ (a.averageCompletion > 85 ∧ a.earlySkipCount = 0)
            then some (keepRec a) else none)) by
    simpa [buildRecommendations] using h al ([], [])
  intro bl
  induction bl with
  | nil => intro acc; simp
  | cons a al ih =>
    intro acc
    rw [List.foldl_cons]
    by_cases h1 : (a.earlySkipCount : ℚ) / (a.totalPlays : ℚ) > 1 / 2
        ∨ a.averageCompletion < 30
    · have hrem : (if (a.earlySkipCount : ℚ) / (a.totalPlays : ℚ) > 1 / 2
            ∨ a.averageCompletion < 30
          then some (removeRec a) else none) = some (removeRec a) := if_pos h1
      have hkeep : (if ¬ ((a.earlySkipCount : ℚ) / (a.totalPlays : ℚ) > 1 / 2
              ∨ a.averageCompletion < 30)
            ∧ (a.averageCompletion > 85 ∧ a.earlySkipCount = 0)
          then some (keepRec a) else none) = none := if_neg (fun h => h.1 h1)
      rw [if_pos h1, ih]
      simp only [List.filterMap_cons, hrem, hkeep, List.append_assoc]
      simp
    · by_cases h2 : a.averageCompletion > 85 ∧ a.earlySkipCount = 0
      · have hrem : (if (a.earlySkipCount : ℚ) / (a.totalPlays : ℚ) > 1 / 2
              ∨ a.averageCompletion < 30
            then some (removeRec a) else none) = none := if_neg h1
        have hkeep : (if ¬ ((a.earlySkipCount : ℚ) / (a.totalPlays : ℚ) > 1 / 2
                ∨ a.averageCompletion < 30)
              ∧ (a.averageCompletion > 85 ∧ a.earlySkipCount = 0)
            then some (keepRec a) else none) = some (keepRec a) := if_pos ⟨h1, h2⟩
        rw [if_neg h1, if_pos h2, ih]
        simp only [List.filterMap_cons, hrem, hkeep, List.append_assoc]
        simp
      · have hrem : (if (a.earlySkipCount : ℚ) / (a.totalPlays : ℚ) > 1 / 2
              ∨ a.averageCompletion < 30
            then some (removeRec a) else none) = none := if_neg h1
        have hkeep : (if ¬ ((a.earlySkipCount : ℚ) / (a.totalPlays : ℚ) > 1 / 2
                ∨ a.averageCompletion < 30)
              ∧ (a.averageCompletion > 85 ∧ a.earlySkipCount = 0)
            then some (keepRec a) else none) = none := if_neg (fun h => h2 h.2)
        rw [if_neg h1, if_neg h2, ih]
        simp only [List.filterMap_cons, hrem, hkeep]

/-- A single flagged-for-removal group yields exactly its remove
recommendation and no keep recommendation. -/
lemma buildRecommendations_single_remove (a : TrackAnalysis)
    (h : (a.earlySkipCount : ℚ) / (a.totalPlays : ℚ) > 1 / 2) :
    (buildRecommendations [a]).1 = [removeRec a] ∧
    (buildRecommendations [a]).2 = [] := by
  rw [buildRecommendations_eq_filterMap]
  have h1 : (if (a.earlySkipCount : ℚ) / (a.totalPlays : ℚ) > 1 / 2
        ∨ a.averageCompletion < 30
      then some (removeRec a) else none) = some (removeRec a) := if_pos (Or.inl h)
  have h2 : (if ¬ ((a.earlySkipCount : ℚ) / (a.totalPlays : ℚ) > 1 / 2
          ∨ a.averageCompletion < 30)
        ∧ (a.averageCompletion > 85 ∧ a.earlySkipCount = 0)
      then some (keepRec a) else none) = none := if_neg (fun hh => hh.1 (Or.inl h))
  constructor
  · rw [List.filterMap_cons, h1, List.filterMap_nil]
  · rw [List.filterMap_cons, List.filterMap_cons, h2]
    rfl

/-- A single keep-worthy group yields exactly its keep recommendation and
no remove recommendation. -/
lemma buildRecommendations_single_keep (a : TrackAnalysis)
    (h1 : ¬ ((a.earlySkipCount : ℚ) / (a.totalPlays : ℚ) > 1 / 2
        ∨ a.averageCompletion < 30))
    (h2 : a.averageCompletion > 85 ∧ a.earlySkipCount = 0) :
    (buildRecommendations [a]).1 = [] ∧
    (buildRecommendations [a]).2 = [keepRec a] := by
  rw [buildRecommendations_eq_filterMap]
  have hr : (if (a.earlySkipCount : ℚ) / (a.totalPlays : ℚ) > 1 / 2
        ∨ a.averageCompletion < 30
      then some (removeRec a) else none) = none := if_neg h1
  have hk : (if ¬ ((a.earlySkipCount : ℚ) / (a.totalPlays : ℚ) > 1 / 2
          ∨ a.averageCompletion < 30)
        ∧ (a.averageCompletion > 85 ∧ a.earlySkipCount = 0)
      then some (keepRec a) else none) = some (keepRec a) := if_pos ⟨h1, h2⟩
  constructor
  · rw [List.filterMap_cons, hr]
    rfl
  · rw [List.filterMap_cons, List.filterMap_cons, hk]
    rfl

/-- Evaluation of the per-track analysis on the four-listen example:
one group with 3 early skips out of 4 plays. -/
lemma trackAnalysisOf_c5skip (q1 q2 q3 q4 : ℚ) :
    trackAnalysisOf (c5skipListens q1 q2 q3 q4)
      = [{ track := sampleTrack
           listens := c5skipListens q1 q2 q3 q4
           earlySkipCount := 3, totalPlays := 4
           averageCompletion := (0 + q1 + q2 + q3 + q4) / 4 }] := by
  simp [c5skipListens, trackAnalysisOf, bumpAnalysis, exListen, sampleTrack]

/-- Evaluation of the per-track analysis on the five-listen keep example:
one group with no early skips and average completion 92. -/
lemma trackAnalysisOf_c5keep :
    trackAnalysisOf c5keepListens
      = [{ track := sampleTrack
           listens := c5keepListens
           earlySkipCount := 0, totalPlays := 5
           averageCompletion := 92 }] := by
  simp [c5keepListens, trackAnalysisOf, bumpAnalysis, exListen, sampleTrack]
  norm_num

/-- C5: a group is classified "remove" iff its early-skip ratio exceeds
1/2 or its average completion is below 30, with the skip-ratio reason
taking precedence; a group not removed is classified "keep" iff its
average completion exceeds 85 and it has no early skips; all others get
no recommendation.  A track with 4 listens, 3 early skips, is removed
with the skip-ratio reason regardless of completion values; a track with
5 listens, 0 early skips, average completion 92 is kept. -/
theorem c5_recommendation_classification :
    (∀ al : List TrackAnalysis,
      buildRecommendations al =
        (al.filterMap (fun a =>
            if (a.earlySkipCount : ℚ) / (a.totalPlays : ℚ) > 1 / 2 ∨ a.averageCompletion < 30
            then some (removeRec a) else none),
         al.filterMap (fun a =>
            if ¬ ((a.earlySkipCount : ℚ) / (a.totalPlays : ℚ) > 1 / 2 ∨ a.averageCompletion < 30)
                ∧ (a.averageCompletion > 85 ∧ a.earlySkipCount = 0)
            then some (keepRec a) else none))) ∧
    (∀ a : TrackAnalysis, (a.earlySkipCount : ℚ) / (a.totalPlays : ℚ) > 1 / 2 →
      (removeRec a).reason = skipRemoveReason a) ∧
    (∀ a : TrackAnalysis, ¬ (a.earlySkipCount : ℚ) / (a.totalPlays : ℚ) > 1 / 2 →
      (removeRec a).reason = completionRemoveReason a) ∧
    (∀ q1 q2 q3 q4 : ℚ,
      ((calculateDetailedMetrics [] (c5skipListens q1 q2 q3 q4) none none).songsToRemove.map
          (fun r => (r.track.id, r.action, r.reason)))
        = [("S1", "remove", "Skipped within 10 seconds 3/4 times")] ∧
      (calculateDetailedMetrics [] (c5skipListens q1 q2 q3 q4) none none).songsToKeep = []) ∧
    (((calculateDetailedMetrics [] c5keepListens none none).songsToKeep.map
        (fun r => (r.track.id, r.action, r.reason)))
      = [("S1", "keep", "92% average completion - you love this!")] ∧
     (calculateDetailedMetrics [] c5keepListens none none).songsToRemove = []) := by
  refine ⟨buildRecommendations_eq_filterMap, ?_, ?_, ?_, ?_⟩
  · intro a h
    simp only [removeRec]
    rw [if_pos h]
  · intro a h
    simp only [removeRec]
    rw [if_neg h]
  · intro q1 q2 q3 q4
    obtain ⟨hrem, hkeep⟩ := buildRecommendations_single_remove
      { track := sampleTrack
        listens := c5skipListens q1 q2 q3 q4
        earlySkipCount := 3, totalPlays := 4
        averageCompletion := (0 + q1 + q2 + q3 + q4) / 4 }
      (by norm_num)
    constructor
    · simp only [calculateDetailedMetrics]
      rw [trackAnalysisOf_c5skip, hrem]
      simp only [List.map_cons, List.map_nil, removeRec]
      rw [if_pos (by norm_num : ((3 : ℕ) : ℚ) / ((4 : ℕ) : ℚ) > 1 / 2)]
      simp only [skipRemoveReason, sampleTrack]
      decide
    · simp only [calculateDetailedMetrics]
      rw [trackAnalysisOf_c5skip, hkeep]
  · obtain ⟨hrem, hkeep⟩ := buildRecommendations_single_keep
      { track := sampleTrack
        listens := c5keepListens
        earlySkipCount := 0, totalPlays := 5
        averageCompletion := 92 }
      (by norm_num) (by norm_num)
    have hjr : jsRound (92 : ℚ) = 92 := by norm_num [jsRound]
    constructor
    · simp only [calculateDetailedMetrics]
      rw [trackAnalysisOf_c5keep, hkeep]
      simp only [List.map_cons, List.map_nil, keepRec, keepReason]
      rw [hjr]
      decide
    · simp only [calculateDetailedMetrics]
      rw [trackAnalysisOf_c5keep, hrem]

/-- C5 witness: the skip-ratio reason precedence at a concrete analysis
group with 3 early skips out of 4 plays. -/
theorem c5_recommendation_classification_witness :
    ((((3 : ℕ) : ℚ) / ((4 : ℕ) : ℚ) > 1 / 2) ∧
      (removeRec { track := sampleTrack, listens := [], earlySkipCount := 3
                   totalPlays := 4, averageCompletion := 50 }).reason
        = skipRemoveReason { track := sampleTrack, listens := [], earlySkipCount := 3
                             totalPlays := 4, averageCompletion := 50 }) :=
  ⟨by norm_num, c5_recommendation_classification.2.1
    { track := sampleTrack, listens := [], earlySkipCount := 3
      totalPlays := 4, averageCompletion := 50 } (by norm_num)⟩

/-- C6: totalSkips and earlySkips both count exactly the early-skip
listens (a listen with `wasSkipped` but not `wasEarlySkip` does not
count), `skipRate` is the rounded early-skip percentage (0 for an empty
list), `completionRate` is its complement, and 10 listens with 3 early
skips give skipRate 30 and completionRate 70. -/
theorem c6_skip_rate_metrics (tracks : List SpotifyTrack)
    (trackListens : List TrackListen) (st et : Option ℤ) :
    (calculateDetailedMetrics tracks trackListens st et).totalSkips
        = trackListens.countP (fun l => l.wasEarlySkip) ∧
    (calculateDetailedMetrics tracks trackListens st et).earlySkips
        = (calculateDetailedMetrics tracks trackListens st et).totalSkips ∧
    (trackListens ≠ [] →
      (calculateDetailedMetrics tracks trackListens st et).skipRate
        = jsRound (100 * (trackListens.countP (fun l => l.wasEarlySkip) : ℚ)
            / (trackListens.length : ℚ))) ∧
    (trackListens = [] →
      (calculateDetailedMetrics tracks trackListens st et).skipRate = 0) ∧
    (calculateDetailedMetrics tracks trackListens st et).completionRate
        = 100 - (calculateDetailedMetrics tracks trackListens st et).skipRate ∧
    totalSkipsOf [exListen 50 false] = 0 ∧
    (calculateDetailedMetrics [] c6listens none none).skipRate = 30 ∧
    (calculateDetailedMetrics [] c6listens none none).completionRate = 70 := by
  have hcount : totalSkipsOf trackListens
      = trackListens.countP (fun l => l.wasEarlySkip) := by
    simp [totalSkipsOf, List.countP_eq_length_filter]
  have hsr : (calculateDetailedMetrics [] c6listens none none).skipRate = 30 := by
    have h1 : totalSkipsOf c6listens = 3 := by decide
    have h2 : c6listens.length = 10 := by decide
    simp only [calculateDetailedMetrics, skipRateOf, h1, h2]
    norm_num [jsRound]
  refine ⟨by simpa [calculateDetailedMetrics] using hcount, rfl, ?_, ?_,
    rfl, by decide, hsr, ?_⟩
  · intro h
    have hl : 0 < trackListens.length := List.length_pos.mpr h
    simp only [calculateDetailedMetrics, skipRateOf, if_pos hl, hcount]
    congr 1
    ring
  · intro h
    subst h
    simp [calculateDetailedMetrics, skipRateOf]
  · simp only [calculateDetailedMetrics, completionRateOf] at hsr ⊢
    rw [hsr]
    norm_num

/-- C6 witness: the non-empty-list skip-rate equation instantiated at the
ten-listen example. -/
theorem c6_skip_rate_metrics_witness :
    (c6listens ≠ []) ∧
    (calculateDetailedMetrics [] c6listens none none).skipRate
      = jsRound (100 * (c6listens.countP (fun l => l.wasEarlySkip) : ℚ)
          / (c6listens.length : ℚ)) :=
  ⟨by decide, (c6_skip_rate_metrics [] c6listens none none).2.2.1 (by decide)⟩

/-- C8: listening diversity is the rounded percentage of the engine's
unique-artist count over the total number of track plays, 0 when there is
no artist data, and 4 unique artists over 20 plays give 20. -/
theorem c8_listening_diversity (tracks : List SpotifyTrack)
    (trackListens : List TrackListen) (st et : Option ℤ) :
    (calculateDetailedMetrics tracks trackListens st et).listeningDiversity
        = jsRound (100
            * ((calculateDetailedMetrics tracks trackListens st et).uniqueArtists : ℚ)
            / (tracks.length : ℚ)) ∧
    ((calculateDetailedMetrics tracks trackListens st et).uniqueArtists = 0 →
      (calculateDetailedMetrics tracks trackListens st et).listeningDiversity = 0) ∧
    (calculateDetailedMetrics c8tracks [] none none).listeningDiversity = 20 := by
  have hmain : listeningDiversityOf tracks
      = jsRound (100 * (uniqueArtistsOf tracks : ℚ) / (tracks.length : ℚ)) := by
    by_cases h : uniqueArtistsOf tracks > 0
    · rw [listeningDiversityOf, if_pos h]
      congr 1
      ring
    · have h0 : uniqueArtistsOf tracks = 0 := Nat.eq_zero_of_not_pos h
      rw [listeningDiversityOf, if_neg h, h0]
      norm_num [jsRound]
  refine ⟨by simpa [calculateDetailedMetrics] using hmain, ?_, ?_⟩
  · intro h
    have h0 : uniqueArtistsOf tracks = 0 := by
      simpa [calculateDetailedMetrics] using h
    simp [calculateDetailedMetrics, listeningDiversityOf, h0]
  · have hA : uniqueArtistsOf c8tracks = 4 := by decide
    have hl : c8tracks.length = 20 := by decide
    simp only [calculateDetailedMetrics, listeningDiversityOf, hA, hl]
    norm_num [jsRound]

/-- C8 witness: the no-artist-data case instantiated at empty input. -/
theorem c8_listening_diversity_witness :
    ((calculateDetailedMetrics [] [] none none).uniqueArtists = 0) ∧
    (calculateDetailedMetrics [] [] none none).listeningDiversity = 0 :=
  ⟨by decide, (c8_listening_diversity [] [] none none).2.1 (by decide)⟩

/-- C9 (counterexample): for a single listen with completionRate 5/2 the
engine returns 3 — the rounded mean — not the arithmetic mean 5/2 the
claim states. -/
theorem c9_counterexample :
    (calculateDetailedMetrics [] [c9listen] none none).averageListenDuration = 3 ∧
    ([c9listen].map (fun l => l.completionRate)).sum / (([c9listen].length : ℕ) : ℚ)
      = 5 / 2 ∧
    ¬ (((calculateDetailedMetrics [] [c9listen] none none).averageListenDuration : ℚ)
        = ([c9listen].map (fun l => l.completionRate)).sum
            / (([c9listen].length : ℕ) : ℚ)) := by
  have h1 : (calculateDetailedMetrics [] [c9listen] none none).averageListenDuration
      = 3 := by
    simp only [calculateDetailedMetrics, averageListenDurationOf, c9listen, exListen]
    norm_num [jsRound]
  have h2 : ([c9listen].map (fun l => l.completionRate)).sum
      / (([c9listen].length : ℕ) : ℚ) = 5 / 2 := by
    norm_num [c9listen, exListen]
  refine ⟨h1, h2, ?_⟩
  rw [h1, h2]
  norm_num

/-- C9 (amended): for a non-empty listen list, `averageListenDuration` is
`Math.round` of the arithmetic mean of the listens' completionRate
values, and 0 for an empty list. -/
theorem c9_amended (tracks : List SpotifyTrack) (st et : Option ℤ) :
    (∀ trackListens : List TrackListen, trackListens ≠ [] →
      (calculateDetailedMetrics tracks trackListens st et).averageListenDuration
        = jsRound ((trackListens.map (fun l => l.completionRate)).sum
            / (trackListens.length : ℚ))) ∧
    (calculateDetailedMetrics tracks [] st et).averageListenDuration = 0 := by
  constructor
  · intro trackListens h
    have hl : 0 < trackListens.length := List.length_pos.mpr h
    simp only [calculateDetailedMetrics, averageListenDurationOf, if_pos hl]
    rw [foldl_add_eq (fun l : TrackListen => l.completionRate) trackListens 0,
      zero_add]
  · simp [calculateDetailedMetrics, averageListenDurationOf]

/-- C9 witness: the rounded-mean equation at the single 5/2 listen. -/
theorem c9_amended_witness :
    ([c9listen] ≠ []) ∧
    (calculateDetailedMetrics [] [c9listen] none none).averageListenDuration
      = jsRound (([c9listen].map (fun l => l.completionRate)).sum
          / (([c9listen].length : ℕ) : ℚ)) :=
  ⟨by decide, (c9_amended [] none none).1 [c9listen] (by decide)⟩

/-- C10 (counterexample): with sessionStartTime = 0 (non-null but falsy in
JS) and sessionEndTime = 60000, the engine returns the fallback 0, not the
wall-clock minute difference 1 the claim requires for non-null
timestamps. -/
theorem c10_counterexample :
    (calculateDetailedMetrics [] [] (some 0) (some 60000)).sessionDuration = 0 ∧
    (⌊((((60000 : ℤ) - (0 : ℤ) : ℤ)) : ℚ) / 1000 / 60⌋ : ℤ) = 1 ∧
    (calculateDetailedMetrics [] [] (some 0) (some 60000)).sessionDuration
      ≠ ⌊((((60000 : ℤ) - (0 : ℤ) : ℤ)) : ℚ) / 1000 / 60⌋ := by
  have h1 : (calculateDetailedMetrics [] [] (some 0) (some 60000)).sessionDuration
      = 0 := by
    simp [calculateDetailedMetrics, sessionDurationOf, totalListeningTimeOf]
  have h2 : (⌊((((60000 : ℤ) - (0 : ℤ) : ℤ)) : ℚ) / 1000 / 60⌋ : ℤ) = 1 := by
    norm_num
  exact ⟨h1, h2, by rw [h1, h2]; norm_num⟩

/-- C10 (amended): the wall-clock difference is used only when both
timestamps are non-null AND non-zero (JS truthiness); when either is null
or zero the engine falls back to the floor of the unrounded sum of the
tracks' catalog durations in minutes. -/
theorem c10_amended (tracks : List SpotifyTrack) (trackListens : List TrackListen) :
    (∀ st et : Option ℤ,
      (st = none ∨ et = none ∨ st = some 0 ∨ et = some 0) →
      (calculateDetailedMetrics tracks trackListens st et).sessionDuration
        = ⌊(tracks.map (fun t => t.duration_ms / 1000 / 60)).sum⌋) ∧
    (∀ s e : ℤ, s ≠ 0 → e ≠ 0 →
      (calculateDetailedMetrics tracks trackListens (some s) (some e)).sessionDuration
        = ⌊((e - s : ℤ) : ℚ) / 1000 / 60⌋) := by
  constructor
  · intro st et h
    rcases h with h | h | h | h <;> subst h
    · simp [calculateDetailedMetrics, sessionDurationOf, totalListeningTimeOf_eq]
    · cases st <;>
        simp [calculateDetailedMetrics, sessionDurationOf, totalListeningTimeOf_eq]
    · cases et <;>
        simp [calculateDetailedMetrics, sessionDurationOf, totalListeningTimeOf_eq]
    · cases st <;>
        simp [calculateDetailedMetrics, sessionDurationOf, totalListeningTimeOf_eq]
  · intro s e hs he
    simp [calculateDetailedMetrics, sessionDurationOf, hs, he]

/-- One `forEach` step of a counting dictionary, seen from the right end
of the item list. -/
lemma countsBy_concat {β α : Type} (key : β → String) (val : β → α)
    (l : List β) (b : β) :
    countsBy key val (l ++ [b]) = bumpCount (countsBy key val l) (key b) (val b) := by
  simp [countsBy, List.foldl_append]

/-- First-encounter key extraction, seen from the right end. -/
lemma firstKeys_concat {β : Type} (key : β → String) (l : List β) (b : β) :
    firstKeys key (l ++ [b])
      = if (firstKeys key l).contains (key b) then firstKeys key l
        else firstKeys key l ++ [key b] := by
  simp [firstKeys, List.foldl_append]

/-- A key occurs among the first-encounter keys iff some item carries it. -/
lemma mem_firstKeys {β : Type} (key : β → String) (items : List β) (k : String) :
    k ∈ firstKeys key items ↔ ∃ b ∈ items, key b = k := by
  induction items using List.reverseRecOn with
  | nil => simp [firstKeys]
  | append_singleton l b ih =>
    rw [firstKeys_concat]
    by_cases h : (firstKeys key l).contains (key b) = true
    · rw [if_pos h]
      have hb : key b ∈ firstKeys key l := by
        simpa [List.contains_iff_exists_mem_beq] using h
      constructor
      · intro hk
        rcases ih.mp hk with ⟨x, hx, hxx⟩
        exact ⟨x, List.mem_append_left _ hx, hxx⟩
      · rintro ⟨x, hx, hxx⟩
        rcases List.mem_append.mp hx with hx | hx
        · exact ih.mpr ⟨x, hx, hxx⟩
        · have hxb : x = b := by simpa using hx
          subst hxb
          rw [← hxx]
          exact hb
    · rw [if_neg h]
      constructor
      · intro hk
        rcases List.mem_append.mp hk with hk | hk
        · rcases ih.mp hk with ⟨x, hx, hxx⟩
          exact ⟨x, List.mem_append_left _ hx, hxx⟩
        · have hkk : k = key b := by simpa using hk
          exact ⟨b, List.mem_append_right _ (by simp), hkk.symm⟩
      · rintro ⟨x, hx, hxx⟩
        rcases List.mem_append.mp hx with hx | hx
        · exact List.mem_append_left _ (ih.mpr ⟨x, hx, hxx⟩)
        · have hxb : x = b := by simpa using hx
          subst hxb
          exact List.mem_append_right _ (by simp [hxx])

/-- A `filterMap` whose function returns entries tagged with the input
key projects back to the key list. -/
lemma filterMap_keyed_fst {α : Type} (g : String → Option (String × α × Nat))
    (ks : List String) (h : ∀ k ∈ ks, ∃ v c, g k = some (k, v, c)) :
    ((ks.filterMap g).map (fun p => p.1)) = ks := by
  induction ks with
  | nil => simp
  | cons k ks ih =>
    rcases h k (by simp) with ⟨v, c, hg⟩
    rw [List.filterMap_cons, hg]
    simp only [List.map_cons]
    rw [ih (fun k hk => h k (List.mem_cons_of_mem _ hk))]

/-- The spec-side grouping's keys are the first-encounter keys. -/
lemma specGroup_fst {β α : Type} (key : β → String) (val : β → α) (items : List β) :
    ((specGroup key val items).map (fun p => p.1)) = firstKeys key items := by
  apply filterMap_keyed_fst
  intro k hk
  rcases (mem_firstKeys key items k).mp hk with ⟨b, hb, hbk⟩
  have hsome : (items.find? (fun x => key x == k)).isSome :=
    List.find?_isSome.mpr ⟨b, hb, by simp [hbk]⟩
  rcases Option.isSome_iff_exists.mp hsome with ⟨x, hx⟩
  exact ⟨val x, items.countP (fun y => key y == k), by rw [hx]; rfl⟩

/-- The duplicate test of `bumpCount` on a spec-side grouping agrees with
first-encounter key membership. -/
lemma specGroup_any {β α : Type} (key : β → String) (val : β → α)
    (items : List β) (k : String) :
    ((specGroup key val items).any (fun p => p.1 == k) = true)
      ↔ k ∈ firstKeys key items := by
  rw [← specGroup_fst key val items]
  simp [List.any_eq_true]

/-- The source's incremental counting dictionary coincides with the
spec-side grouping: same keys in first-encounter order, the first-seen
value for each key, and the total occurrence count of each key. -/
lemma countsBy_eq_specGroup {β α : Type} (key : β → String) (val : β → α)
    (items : List β) :
    countsBy key val items = specGroup key val items := by
  induction items using List.reverseRecOn with
  | nil => simp [countsBy, specGroup, firstKeys]
  | append_singleton l b ih =>
    rw [countsBy_concat, ih]
    by_cases hmem : key b ∈ firstKeys key l
    · have hany : (specGroup key val l).any (fun p => p.1 == key b) = true :=
        (specGroup_any key val l (key b)).mpr hmem
      have hcontains : (firstKeys key l).contains (key b) = true :=
        List.contains_iff_exists_mem_beq.mpr ⟨key b, hmem, by simp⟩
      rw [bumpCount, if_pos hany, specGroup, List.map_filterMap,
        specGroup, firstKeys_concat, if_pos hcontains]
      apply List.filterMap_congr
      intro k hk
      rcases (mem_firstKeys key l k).mp hk with ⟨x0, hx0, hx0k⟩
      have hsome : (l.find? (fun y => key y == k)).isSome :=
        List.find?_isSome.mpr ⟨x0, hx0, by simp [hx0k]⟩
      rcases Option.isSome_iff_exists.mp hsome with ⟨x, hx⟩
      have hfind : (l ++ [b]).find? (fun y => key y == k) = some x := by
        rw [List.find?_append, hx]
        rfl
      have hcount : (l ++ [b]).countP (fun y => key y == k)
          = l.countP (fun y => key y == k)
            + (if key b == k then 1 else 0) := by
        rw [List.countP_append]
        simp [List.countP_cons]
      rw [hx, hfind, hcount]
      by_cases hkb : k = key b
      · subst hkb
        simp
      · have h1 : (k == key b) = false := by simp [hkb]
        have h2 : (key b == k) = false := by
          rcases hh : (key b == k) with _ | _
          · rfl
          · have hkb2 : key b = k := by simpa using hh
            exact absurd hkb2.symm hkb
        simp [h1, h2]
        exact hkb
    · have hany : (specGroup key val l).any (fun p => p.1 == key b) = false := by
        rcases hh : (specGroup key val l).any (fun p => p.1 == key b) with _ | _
        · rfl
        · exact absurd ((specGroup_any key val l (key b)).mp hh) hmem
      have hcontains : (firstKeys key l).contains (key b) = false := by
        rcases hh : (firstKeys key l).contains (key b) with _ | _
        · rfl
        · exact absurd (by simpa [List.contains_iff_exists_mem_beq] using hh) hmem
      have hnotin : ∀ x ∈ l, ¬ key x = key b := by
        intro x hx hxx
        exact hmem ((mem_firstKeys key l (key b)).mpr ⟨x, hx, hxx⟩)
      have hnone : l.find? (fun y => key y == key b) = none := by
        rcases hh : l.find? (fun y => key y == key b) with _ | x
        · rfl
        · have h1 := List.find?_some hh
          have h2 := List.mem_of_find?_eq_some hh
          exact absurd (by simpa using h1) (hnotin x h2)
      have hzero : l.countP (fun y => key y == key b) = 0 :=
        List.countP_eq_zero.mpr (fun x hx => by simpa using hnotin x hx)
      have hc2 : ¬ ((firstKeys key l).contains (key b) = true) := by
        intro hh
        rw [hcontains] at hh
        exact Bool.false_ne_true hh
      rw [bumpCount, if_neg (by simp [hany])]
      conv_rhs => rw [specGroup, firstKeys_concat]
      rw [if_neg hc2, List.filterMap_append]
      congr 1
      · rw [specGroup]
        apply List.filterMap_congr
        intro k hk
        have hbk : (key b == k) = false := by
          rcases hh : (key b == k) with _ | _
          · rfl
          · exact absurd (by rw [show key b = k from by simpa using hh]; exact hk) hmem
        rcases (mem_firstKeys key l k).mp hk with ⟨x0, hx0, hx0k⟩
        have hsome : (l.find? (fun y => key y == k)).isSome :=
          List.find?_isSome.mpr ⟨x0, hx0, by simp [hx0k]⟩
        rcases Option.isSome_iff_exists.mp hsome with ⟨x, hx⟩
        have hfind : (l ++ [b]).find? (fun y => key y == k) = some x := by
          rw [List.find?_append, hx]
          rfl
        have hcount : (l ++ [b]).countP (fun y => key y == k)
            = l.countP (fun y => key y == k) := by
          rw [List.countP_append]
          simp [List.countP_cons, hbk]
        rw [hfind, hcount, hx]
      · have hfindb : (l ++ [b]).find? (fun y => key y == key b) = some b := by
          rw [List.find?_append, hnone]
          simp
        have hcountb : (l ++ [b]).countP (fun y => key y == key b) = 1 := by
          rw [List.countP_append, hzero]
          simp [List.countP_cons]
        simp [List.filterMap_cons, hnone, hzero]

/-- The modelled JS sort output is pairwise descending in count. -/
lemma sortByCountDesc_sorted {γ : Type} (count : γ → Nat) (l : List γ) :
    (sortByCountDesc count l).Pairwise (fun a b => count b ≤ count a) := by
  haveI ht : IsTotal γ (fun a b => count b ≤ count a) :=
    ⟨fun a b => (Nat.le_total (count b) (count a)).elim Or.inl Or.inr⟩
  haveI htr : IsTrans γ (fun a b => count b ≤ count a) :=
    ⟨fun a b c hab hbc => Nat.le_trans hbc hab⟩
  exact List.sorted_insertionSort _ l

/-- The modelled JS sort output is a permutation of its input. -/
lemma sortByCountDesc_perm {γ : Type} (count : γ → Nat) (l : List γ) :
    (sortByCountDesc count l).Perm l :=
  List.perm_insertionSort _ l

/-- Inserting into the sort in progress puts an element of count n in
front of exactly the later elements of count n. -/
lemma filter_orderedInsert {γ : Type} (count : γ → Nat) (n : Nat) (a : γ)
    (m : List γ) :
    (List.orderedInsert (fun x y => count y ≤ count x) a m).filter
        (fun x => count x == n)
      = if count a == n then a :: m.filter (fun x => count x == n)
        else m.filter (fun x => count x == n) := by
  induction m with
  | nil =>
    rcases hh : (count a == n) with _ | _ <;>
      simp [List.orderedInsert, List.filter_cons, hh]
  | cons b m ih =>
    rw [List.orderedInsert]
    by_cases hab : count b ≤ count a
    · rw [if_pos hab, List.filter_cons]
    · rw [if_neg hab, List.filter_cons, ih]
      by_cases han : count a = n
      · have hblt : count a < count b := Nat.lt_of_not_le hab
        have hbn : (count b == n) = false := by
          have : ¬ count b = n := by omega
          simp [this]
        have haT : (count a == n) = true := by simp [han]
        simp [hbn, haT, List.filter_cons]
      · have haF : (count a == n) = false := by simp [han]
        simp [haF, List.filter_cons]

/-- Stability of the modelled JS sort: elements of any fixed count keep
their original relative order. -/
lemma sortByCountDesc_stable {γ : Type} (count : γ → Nat) (l : List γ) (n : Nat) :
    (sortByCountDesc count l).filter (fun x => count x == n)
      = l.filter (fun x => count x == n) := by
  simp only [sortByCountDesc]
  induction l with
  | nil => rfl
  | cons a l ih =>
    rw [List.insertionSort, filter_orderedInsert, ih, List.filter_cons]

/-- C7: the engine's topTracks/topArtists/topAlbums are the spec-side
frequency groupings — repeats counted over the tracks sequence, keyed by
track id, artist display name, and album name respectively — run through
the stable descending-count sort and truncated to 10/10/5; the modelled
sort is pairwise descending in count, a permutation of its input, and
stable (ties keep first-encounter order). -/
theorem c7_top_lists (tracks : List SpotifyTrack) (trackListens : List TrackListen)
    (st et : Option ℤ) :
    (calculateDetailedMetrics tracks trackListens st et).topTracks
      = (sortByCountDesc (fun p => p.2)
          (countValues (specGroup (fun t => t.id) (fun t => t) tracks))).take 10 ∧
    (calculateDetailedMetrics tracks trackListens st et).topArtists
      = (sortByCountDesc (fun p => p.2)
          (countValues (specGroup (fun a => a.name) (fun a => a)
            ((tracks.map (fun t => t.artists)).flatten)))).take 10 ∧
    (calculateDetailedMetrics tracks trackListens st et).topAlbums
      = (sortByCountDesc (fun p => p.2)
          (countValues (specGroup (fun t => t.album.name)
            (fun t => (t.album.name, t.album.images.head?)) tracks))).take 5 ∧
    (∀ l : List (SpotifyTrack × Nat),
      (sortByCountDesc (fun p => p.2) l).Pairwise (fun a b => b.2 ≤ a.2)) ∧
    (∀ l : List (SpotifyTrack × Nat), (sortByCountDesc (fun p => p.2) l).Perm l) ∧
    (∀ (l : List (SpotifyTrack × Nat)) (n : Nat),
      (sortByCountDesc (fun p => p.2) l).filter (fun x => x.2 == n)
        = l.filter (fun x => x.2 == n)) := by
  refine ⟨?_, ?_, ?_, fun l => sortByCountDesc_sorted (fun p => p.2) l,
    fun l => sortByCountDesc_perm (fun p => p.2) l,
    fun l n => sortByCountDesc_stable (fun p => p.2) l n⟩
  · simp only [calculateDetailedMetrics, topTracksOf, trackCounts,
      countsBy_eq_specGroup]
  · simp only [calculateDetailedMetrics, topArtistsOf, artistCounts,
      countsBy_eq_specGroup]
  · simp only [calculateDetailedMetrics, topAlbumsOf, albumCounts,
      countsBy_eq_specGroup]

/-- C10 witness: the fallback at a zero start timestamp and the
difference formula at non-zero timestamps. -/
theorem c10_amended_witness :
    ((calculateDetailedMetrics [] [] (some 0) (some 1)).sessionDuration
        = ⌊(([] : List SpotifyTrack).map (fun t => t.duration_ms / 1000 / 60)).sum⌋) ∧
    ((1 : ℤ) ≠ 0 ∧ (60001 : ℤ) ≠ 0 ∧
      (calculateDetailedMetrics [] [] (some 1) (some 60001)).sessionDuration
        = ⌊(((60001 : ℤ) - (1 : ℤ) : ℤ) : ℚ) / 1000 / 60⌋) :=
  ⟨(c10_amended [] []).1 (some 0) (some 1) (Or.inr (Or.inr (Or.inl rfl))),
    by decide, by decide, (c10_amended [] []).2 1 60001 (by decide) (by decide)⟩

end SmartWrapped
